import Mathlib

/-!
Verification of `easy_equities_client/accounts/parsers.py`.

The module scrapes three kinds of records out of server-rendered HTML pages:
accounts (from the account-overview page), equity holdings (from the holdings
page) and transaction rows (from the transaction-history search page).

The embedding below models:
  * HTML documents as a tree of element/text nodes (`Node`), with the
    BeautifulSoup operations the source uses (`find_all` by attribute/class,
    `find` by tag name, `.text`, `.parent`, `attrs` lookup);
  * Python exceptions as an error type `PyErr` carried by `Except`
    (AttributeError from attribute access on `None`, KeyError from `attrs[...]`
    and dict lookups, ValueError from `float`/`str.index`/`date.fromisoformat`,
    IndexError from `s[0]` on an empty string, and the module's own
    `HoldingFieldNotFoundException`);
  * the Python string/number primitives the source calls (`str.strip`,
    `str.replace`, `str.index`/`rindex`, slicing, `str.split`, `float`,
    `date.fromisoformat`), with decimal values modelled as rationals.
Each extractor is a direct translation of the corresponding source function.
-/

namespace Py

/-- The characters removed by Python's `str.strip()` (and ignored around a
`float(...)` literal): space, tab, newline, carriage return, vertical tab and
form feed. -/
def isSpaceChar (c : Char) : Bool :=
  c = ' ' || c = '\t' || c = '\n' || c = '\r' || c = '\x0b' || c = '\x0c'

/-- Python `str.strip()` on a character list. -/
def stripList (l : List Char) : List Char :=
  ((l.dropWhile isSpaceChar).reverse.dropWhile isSpaceChar).reverse

/-- Python `str.strip()`. -/
def strip (s : String) : String := ⟨stripList s.data⟩

/-- Python `s.replace(c, '')` for a single-character pattern: delete every
occurrence of the character. -/
def removeAllChar (c : Char) (s : String) : String := ⟨s.data.filter (· != c)⟩

/-- Python `c in s` for a single-character needle. -/
def containsChar (s : String) (c : Char) : Bool := s.data.contains c

/-- Does the pattern occur in `s` starting at position `i`? -/
def subAt (pat s : List Char) (i : Nat) : Bool := pat.isPrefixOf (s.drop i)

/-- All start positions at which `pat` occurs in `s`, in increasing order. -/
def occurrenceList (pat s : String) : List Nat :=
  (List.range (s.data.length + 1)).filter (subAt pat.data s.data)

/-- Python `s.index(pat)`: position of the first occurrence, `none` when the
pattern does not occur (Python raises ValueError there). -/
def indexSub (pat s : String) : Option Nat := (occurrenceList pat s).head?

/-- Python `s.rindex(pat)`: position of the last occurrence, `none` when the
pattern does not occur (Python raises ValueError there). -/
def rindexSub (pat s : String) : Option Nat := (occurrenceList pat s).getLast?

/-- Python slicing `s[a:b]` for non-negative bounds: characters `a` up to
`b - 1`; empty when `b ≤ a`; out-of-range bounds are clamped, never an error. -/
def slice (s : String) (a b : Nat) : String := ⟨(s.data.drop a).take (b - a)⟩

/-- Split a character list on a separator character, keeping empty groups,
as Python `str.split(sep)` does. The result is always non-empty. -/
def splitOnChar (sep : Char) : List Char → List (List Char)
  | [] => [[]]
  | c :: cs =>
    let r := splitOnChar sep cs
    if c = sep then [] :: r
    else
      match r with
      | [] => [[c]]
      | g :: gs => (c :: g) :: gs

/-- Python `s.split(sep)[-1]`: the part after the last separator, or the whole
string when the separator does not occur. Total because `split` never returns
an empty list. -/
def lastSplit (sep : Char) (s : String) : String :=
  ⟨(splitOnChar sep s.data).getLastD []⟩

/-- Numeric value of a digit string (most significant first). -/
def natOfDigits (l : List Char) : Nat :=
  l.foldl (fun a c => 10 * a + (c.toNat - 48)) 0

/-- Python `float(s)` on the plain decimal fragment this module can encounter:
optional surrounding whitespace, an optional sign, then digits with at most one
decimal point and at least one digit (`"1"`, `"1."`, `".5"`). Exponents,
underscores, `inf` and `nan` — which never arise from the currency strings this
module parses — are outside the modelled fragment and rejected. `none` models
Python's ValueError. The value is modelled as a rational. -/
def pyFloat (s : String) : Option ℚ :=
  let t := stripList s.data
  let signed : Int × List Char :=
    match t with
    | '+' :: r => (1, r)
    | '-' :: r => (-1, r)
    | r => (1, r)
  let ip := signed.2.takeWhile Char.isDigit
  let rest := signed.2.dropWhile Char.isDigit
  match rest with
  | [] => if ip.isEmpty then none else some (mkRat (signed.1 * (natOfDigits ip : Int)) 1)
  | '.' :: fr =>
    if fr.all Char.isDigit && !(ip.isEmpty && fr.isEmpty) then
      some (mkRat (signed.1 * ((natOfDigits ip * 10 ^ fr.length + natOfDigits fr : Nat) : Int))
        (10 ^ fr.length))
    else none
  | _ => none

/-- A calendar date as produced by `datetime.date`. -/
structure PyDate where
  year : Nat
  month : Nat
  day : Nat
deriving DecidableEq

/-- Gregorian leap-year rule, as used by `datetime.date` validity checks. -/
def isLeapYear (y : Nat) : Bool :=
  (y % 4 == 0 && y % 100 != 0) || y % 400 == 0

/-- Number of days in a month of a given year. -/
def daysInMonth (y m : Nat) : Nat :=
  if m = 2 then (if isLeapYear y then 29 else 28)
  else if m = 4 ∨ m = 6 ∨ m = 9 ∨ m = 11 then 30
  else 31

/-- Python `date.fromisoformat`: accepts exactly `YYYY-MM-DD` with a valid
year (1–9999), month and day; `none` models ValueError. -/
def fromisoformat (s : String) : Option PyDate :=
  match s.data with
  | [y1, y2, y3, y4, '-', m1, m2, '-', d1, d2] =>
    if [y1, y2, y3, y4, m1, m2, d1, d2].all Char.isDigit then
      let y := natOfDigits [y1, y2, y3, y4]
      let m := natOfDigits [m1, m2]
      let d := natOfDigits [d1, d2]
      if 1 ≤ y ∧ y ≤ 9999 ∧ 1 ≤ m ∧ m ≤ 12 ∧ 1 ≤ d ∧ d ≤ daysInMonth y m then
        some ⟨y, m, d⟩
      else none
    else none
  | _ => none

end Py

/-- An HTML DOM node as produced by BeautifulSoup with the `html.parser`
builder: an element with a tag name, its non-class attributes, its (multi-valued)
`class` attribute when present, and its children in document order — or a text
node. A page is represented by a root element standing for the soup object
itself (the soup has no attributes and no class). -/
inductive Node where
  | elem (tag : String) (attrs : List (String × String))
      (classes : Option (List String)) (children : List Node)
  | text (s : String)

namespace Node

mutual

/-- BeautifulSoup `tag.text`: concatenation of all descendant text nodes in
document order. -/
def nodeText : Node → String
  | .text s => s
  | .elem _ _ _ cs => nodeTextList cs

/-- `nodeText` mapped over a child list and concatenated. -/
def nodeTextList : List Node → String
  | [] => ""
  | c :: cs => nodeText c ++ nodeTextList cs

end

mutual

/-- All strict descendants of a node paired with their immediate parent, in
document (preorder) order — the traversal order of BeautifulSoup `find_all`. -/
def descWP : Node → List (Node × Node)
  | .text _ => []
  | .elem t a k cs => descWPList (.elem t a k cs) cs

/-- Descendant/parent pairs contributed by a child list of `parent`. -/
def descWPList (parent : Node) : List Node → List (Node × Node)
  | [] => []
  | c :: cs => ((c, parent) :: descWP c) ++ descWPList parent cs

end

/-- All strict descendants in document order. -/
def descendantsOf (n : Node) : List Node := (descWP n).map Prod.fst

/-- Lookup of a non-class attribute, `tag.attrs.get(key)`; `none` on a text
node or an absent attribute. -/
def attrGet (n : Node) (key : String) : Option String :=
  match n with
  | .text _ => none
  | .elem _ attrs _ _ => (attrs.find? (fun kv => kv.1 == key)).map Prod.snd

/-- The multi-valued `class` attribute, `none` when absent (so that
`attrs['class']` raising KeyError is observable). -/
def classesAttr : Node → Option (List String)
  | .text _ => none
  | .elem _ _ cls _ => cls

/-- Does an element carry the given tag name? Text nodes never match. -/
def isTag (t : String) (n : Node) : Bool :=
  match n with
  | .elem tg _ _ _ => tg == t
  | .text _ => false

/-- BeautifulSoup class matching for `find(attrs={'class': c})`: the pattern
matches when it equals one of the element's classes, or when it equals the
whole space-joined class attribute (which is how a multi-class pattern such as
`"table table-style"` matches). Elements without a class attribute and text
nodes never match. -/
def classMatches (c : String) (n : Node) : Bool :=
  match classesAttr n with
  | none => false
  | some cs => cs.contains c || String.intercalate " " cs == c

/-- `find_all(pred)` over a page, returning each matching strict descendant
paired with its parent, in document order. -/
def findAllWP (p : Node → Bool) (root : Node) : List (Node × Node) :=
  (descWP root).filter (fun dp => p dp.1)

/-- `tag.find(pred)`: the first matching strict descendant in document order. -/
def findFirstNode (p : Node → Bool) (n : Node) : Option Node :=
  (descendantsOf n).find? p

/-- `tag.find(t)` / attribute access `tag.t` by tag name. -/
def findTag (t : String) (n : Node) : Option Node := findFirstNode (isTag t) n

/-- `tag.findAll(t)` by tag name. -/
def findTags (t : String) (n : Node) : List Node :=
  (descendantsOf n).filter (isTag t)

end Node

/-- The Python exceptions observable from this module: `attrError` for
AttributeError (attribute access on `None`), `keyError` for a failed
`attrs[...]`/dict lookup, `valueError` for `float`/`index`/`fromisoformat`
failures, `indexError` for `s[0]` on an empty string, and `fieldNotFound`
for the module's own `HoldingFieldNotFoundException`, which carries the field
name and the underlying exception. -/
inductive PyErr where
  | attrError
  | keyError (key : String)
  | valueError
  | indexError
  | fieldNotFound (fieldName : String) (cause : PyErr)
deriving DecidableEq

/-- Effectful map over a list, stopping at the first error — the evaluation
order of a Python loop or list comprehension whose body can raise. -/
def mapE (f : α → Except PyErr β) : List α → Except PyErr (List β)
  | [] => .ok []
  | a :: as =>
    match f a with
    | .error e => .error e
    | .ok b =>
      match mapE f as with
      | .error e => .error e
      | .ok bs => .ok (b :: bs)

/-- Python `d[k] = v` on an insertion-ordered dict represented as an
association list with unique keys: replace in place when the key is present,
append otherwise. -/
def dictInsert (k : String) (v : α) : List (String × α) → List (String × α)
  | [] => [(k, v)]
  | (k', v') :: rest =>
    if k' = k then (k, v) :: rest else (k', v') :: dictInsert k v rest

/-- Python `d[k]` lookup: `keyError` when absent. -/
def lookupE (k : String) (d : List (String × String)) : Except PyErr String :=
  match d.find? (fun kv => kv.1 == k) with
  | none => .error (.keyError k)
  | some kv => .ok kv.2

/-- An account record, `easy_equities_client.accounts.types.Account`. -/
structure Account where
  name : String
  trading_currency_id : String
  id : String
deriving DecidableEq

/-- `extract_account_info(account_div)` (parsers.py lines 11–19), with the
parent node passed explicitly. Returns `ok none` when the parent's
`data-tradingcurrencyid` attribute is absent or the empty string (Python
falsiness of `attrs.get(...)`); raises KeyError when the qualifying parent
lacks `data-id`; otherwise builds the Account from the trimmed node text and
the trimmed parent attributes. -/
def extract_account_info (account_div parent : Node) : Except PyErr (Option Account) :=
  match Node.attrGet parent "data-tradingcurrencyid" with
  | none => .ok none
  | some tc =>
    if tc = "" then .ok none
    else
      match Node.attrGet parent "data-id" with
      | none => .error (.keyError "data-id")
      | some i =>
        .ok (some ⟨Py.strip (Node.nodeText account_div), Py.strip tc, Py.strip i⟩)

/-- The `find_all(attrs={"id": "trust-account-types"})` call of
`AccountOverviewParser.extract_accounts`: every descendant whose `id`
attribute equals the marker, paired with its parent, in document order. -/
def findAccountDivs (page : Node) : List (Node × Node) :=
  Node.findAllWP (fun n => Node.attrGet n "id" == some "trust-account-types") page

/-- `AccountOverviewParser.extract_accounts` (parsers.py lines 31–43): map
`extract_account_info` over the matched containers (the inner list
comprehension, which evaluates completely and can raise), then drop the
`None` entries (the outer `if account` filter). -/
def extract_accounts (page : Node) : Except PyErr (List Account) :=
  match mapE (fun dp => extract_account_info dp.1 dp.2) (findAccountDivs page) with
  | .error e => .error e
  | .ok opts => .ok (opts.filterMap id)

/-- A holding record: the dict built by `HoldingDivParser.to_dict`, with its
eight fixed string-valued keys. -/
structure Holding where
  name : String
  contract_code : String
  purchase_value : String
  current_value : String
  current_price : String
  img : String
  view_url : String
  isin : String
deriving DecidableEq

namespace HoldingDivParser

/-- `HoldingDivParser.name`: trimmed text of the first
`equity-image-as-text` descendant; AttributeError when there is none. -/
def name (div : Node) : Except PyErr String :=
  match Node.findFirstNode (Node.classMatches "equity-image-as-text") div with
  | none => .error .attrError
  | some n => .ok (Py.strip (Node.nodeText n))

/-- `HoldingDivParser.purchase_value`: trimmed text of the first
`purchase-value-cell` descendant. -/
def purchase_value (div : Node) : Except PyErr String :=
  match Node.findFirstNode (Node.classMatches "purchase-value-cell") div with
  | none => .error .attrError
  | some n => .ok (Py.strip (Node.nodeText n))

/-- `HoldingDivParser.current_value`: trimmed text of the first
`current-value-cell` descendant. -/
def current_value (div : Node) : Except PyErr String :=
  match Node.findFirstNode (Node.classMatches "current-value-cell") div with
  | none => .error .attrError
  | some n => .ok (Py.strip (Node.nodeText n))

/-- `HoldingDivParser.current_price`: trimmed text of the first
`current-price-cell` descendant. -/
def current_price (div : Node) : Except PyErr String :=
  match Node.findFirstNode (Node.classMatches "current-price-cell") div with
  | none => .error .attrError
  | some n => .ok (Py.strip (Node.nodeText n))

/-- `HoldingDivParser.img`: the `src` attribute of the first `instrument`
descendant; AttributeError when the node is missing, KeyError when it lacks
`src`. -/
def img (div : Node) : Except PyErr String :=
  match Node.findFirstNode (Node.classMatches "instrument") div with
  | none => .error .attrError
  | some n =>
    match Node.attrGet n "src" with
    | none => .error (.keyError "src")
    | some v => .ok v

/-- The string computation of `HoldingDivParser.contract_code` on the image
URL: `img[img.rindex('/') + 1 : img.index('.png')]`. ValueError when either
`'/'` or `'.png'` does not occur (`rindex` is evaluated first); note that the
slice uses the LAST `'/'` but the FIRST `'.png'`, and a slice whose start is
past its end is the empty string, not an error. -/
def contractCodeOfImg (s : String) : Except PyErr String :=
  match Py.rindexSub "/" s with
  | none => .error .valueError
  | some i =>
    match Py.indexSub ".png" s with
    | none => .error .valueError
    | some j => .ok (Py.slice s (i + 1) j)

/-- `HoldingDivParser.contract_code`: evaluate `self.img`, then slice it. -/
def contract_code (div : Node) : Except PyErr String :=
  match img div with
  | .error e => .error e
  | .ok s => contractCodeOfImg s

/-- `HoldingDivParser.view_url`: the `data-detailviewurl` attribute of the
first `span` descendant of the first `collapse-container` descendant. -/
def view_url (div : Node) : Except PyErr String :=
  match Node.findFirstNode (Node.classMatches "collapse-container") div with
  | none => .error .attrError
  | some c =>
    match Node.findTag "span" c with
    | none => .error .attrError
    | some sp =>
      match Node.attrGet sp "data-detailviewurl" with
      | none => .error (.keyError "data-detailviewurl")
      | some v => .ok v

/-- `HoldingDivParser.isin`: the same detail-view URL, split on `'='`, last
part. -/
def isin (div : Node) : Except PyErr String :=
  match view_url div with
  | .error e => .error e
  | .ok v => .ok (Py.lastSplit '=' v)

/-- The `try/except` body of `to_dict`: wrap a field extraction's failure in
`HoldingFieldNotFoundException` carrying the field name and the cause. -/
def wrapField (f : String) (r : Except PyErr String) : Except PyErr String :=
  match r with
  | .error e => .error (.fieldNotFound f e)
  | .ok v => .ok v

/-- `HoldingDivParser.to_dict` (parsers.py lines 104–122): extract the eight
fields in the order of the `fields` list, wrapping the first failure as a
`HoldingFieldNotFoundException` naming the failing field. -/
def to_dict (div : Node) : Except PyErr Holding :=
  match wrapField "name" (name div) with
  | .error e => .error e
  | .ok n =>
  match wrapField "contract_code" (contract_code div) with
  | .error e => .error e
  | .ok cc =>
  match wrapField "purchase_value" (purchase_value div) with
  | .error e => .error e
  | .ok pv =>
  match wrapField "current_value" (current_value div) with
  | .error e => .error e
  | .ok cv =>
  match wrapField "current_price" (current_price div) with
  | .error e => .error e
  | .ok cp =>
  match wrapField "img" (img div) with
  | .error e => .error e
  | .ok im =>
  match wrapField "view_url" (view_url div) with
  | .error e => .error e
  | .ok vu =>
  match wrapField "isin" (isin div) with
  | .error e => .error e
  | .ok isn => .ok ⟨n, cc, pv, cv, cp, im, vu, isn⟩

end HoldingDivParser

/-- The `find_all(attrs={'class': 'holding-inner-container'})` call of
`AccountHoldingsParser.extract_holdings`: matching descendants with their
parents, in document order. -/
def findHoldingDivs (page : Node) : List (Node × Node) :=
  Node.findAllWP (Node.classMatches "holding-inner-container") page

/-- The guard of the line-139 list comprehension:
`'holding-table-header' not in holding_div.parent.attrs['class']`, evaluated
left to right. A parent without a `class` attribute raises KeyError
(`attrs['class']`); otherwise nodes whose parent's class list contains the
header marker are dropped. -/
def headerGuard : List (Node × Node) → Except PyErr (List (Node × Node))
  | [] => .ok []
  | (d, p) :: rest =>
    match Node.classesAttr p with
    | none => .error (.keyError "class")
    | some cs =>
      match headerGuard rest with
      | .error e => .error e
      | .ok tail =>
        if cs.contains "holding-table-header" then .ok tail else .ok ((d, p) :: tail)

/-- Building `set([HoldingDivParser(d) for d in ...])` evaluates
`hash(parser) = hash(self.name)` for each wrapper in list order, so every
row's `name` property runs here; a missing name sub-node surfaces as a raw
AttributeError from inside the set construction. Pair each div with its name
value. -/
def evalNames : List Node → Except PyErr (List (Node × String))
  | [] => .ok []
  | d :: ds =>
    match HoldingDivParser.name d with
    | .error e => .error e
    | .ok n =>
      match evalNames ds with
      | .error e => .error e
      | .ok rest => .ok ((d, n) :: rest)

/-- First-occurrence-wins deduplication by name: Python's `set` keeps the
already-inserted element when an equal one (equality is by `name` via
`HoldingDivParser.__eq__`/`__hash__`) is added again. CPython exposes the
surviving elements in an unspecified order; this model fixes first-occurrence
order, and no theorem below depends on the output order. -/
def dedupGo (seen : List String) : List (Node × String) → List (Node × String)
  | [] => []
  | (d, n) :: rest =>
    if n ∈ seen then dedupGo seen rest
    else (d, n) :: dedupGo (n :: seen) rest

/-- Deduplicate a name-annotated row list, keeping the first row carrying each
distinct name. -/
def dedupByName (l : List (Node × String)) : List (Node × String) := dedupGo [] l

/-- `AccountHoldingsParser.extract_holdings` (parsers.py lines 133–140):
find the marker divs, drop the first match (`[1:]`), apply the header-parent
guard, deduplicate by name (the `set(...)` construction, which evaluates each
row's name), then run `to_dict` on each survivor. -/
def extract_holdings (page : Node) : Except PyErr (List Holding) :=
  match headerGuard ((findHoldingDivs page).drop 1) with
  | .error e => .error e
  | .ok kept =>
  match evalNames (kept.map Prod.fst) with
  | .error e => .error e
  | .ok named => mapE (fun p => HoldingDivParser.to_dict p.1) (dedupByName named)

/-- A value stored in a transaction row dict: originally scraped strings,
the typed date written over `DATE`, and the numeric `AMOUNT`. -/
inductive TxVal where
  | str (s : String)
  | dat (d : Py.PyDate)
  | num (q : ℚ)
deriving DecidableEq

/-- The inner cell loop of `extract_transaction_history` (lines 159–161):
`row_data[column['data-title']] = column.text.strip()` over the row's `td`
descendants; a cell without `data-title` raises KeyError. -/
def scrapeCellsGo (acc : List (String × String)) :
    List Node → Except PyErr (List (String × String))
  | [] => .ok acc
  | c :: cs =>
    match Node.attrGet c "data-title" with
    | none => .error (.keyError "data-title")
    | some k => scrapeCellsGo (dictInsert k (Py.strip (Node.nodeText c)) acc) cs

/-- The cell loop, started from the empty dict. -/
def scrapeCells (cells : List Node) : Except PyErr (List (String × String)) :=
  scrapeCellsGo [] cells

/-- The DEBIT/CREDIT parsing of lines 165–177: the amount is negative exactly
when a `'-'` occurs (every `'-'` is then deleted); every space character is
deleted (only `' '`, not other whitespace); `s[0]` becomes the currency
(IndexError on an empty string); `float(s[1:])` becomes the magnitude
(ValueError when it does not parse); the result is `multiplier * magnitude`,
written here as a conditional negation since the multiplier is `-1` or `1`. -/
def parseDebitCredit (s : String) : Except PyErr (String × ℚ) :=
  let signed : Bool × String :=
    if Py.containsChar s '-' then (true, Py.removeAllChar '-' s) else (false, s)
  let s2 := Py.removeAllChar ' ' signed.2
  match s2.data with
  | [] => .error .indexError
  | c :: rest =>
    match Py.pyFloat ⟨rest⟩ with
    | none => .error .valueError
    | some m => .ok (⟨[c]⟩, if signed.1 then -m else m)

/-- The per-row body of `extract_transaction_history` (lines 159–180): scrape
the cells into a dict, replace `DATE` by its parsed date (KeyError when the
cell is absent, ValueError when malformed), parse `DEBIT/CREDIT` (KeyError
when absent) and store the currency under `CURRENCY` and the signed amount
under `AMOUNT`. -/
def processRow (row : Node) : Except PyErr (List (String × TxVal)) :=
  match scrapeCells (Node.findTags "td" row) with
  | .error e => .error e
  | .ok rd =>
  match lookupE "DATE" rd with
  | .error e => .error e
  | .ok ds =>
  match Py.fromisoformat ds with
  | none => .error .valueError
  | some d =>
  match lookupE "DEBIT/CREDIT" rd with
  | .error e => .error e
  | .ok amount_str =>
  match parseDebitCredit amount_str with
  | .error e => .error e
  | .ok ca =>
    .ok (dictInsert "AMOUNT" (TxVal.num ca.2)
      (dictInsert "CURRENCY" (TxVal.str ca.1)
        (dictInsert "DATE" (TxVal.dat d) (rd.map (fun kv => (kv.1, TxVal.str kv.2))))))

/-- The `soup.find('table', {'class': 'table table-style'})` call. -/
def findTable (page : Node) : Option Node :=
  Node.findFirstNode
    (fun n => Node.isTag "table" n && Node.classMatches "table table-style" n) page

/-- `TransactionHistorySearchParser.extract_transaction_history` (lines
150–182): an absent table makes `htmltable.tbody` raise AttributeError; an
absent `tbody` makes `None.findAll('tr')` raise AttributeError (with
`html.parser`, no `tbody` is implied — it must be in the markup); otherwise
each `tr` of the body is processed in order, the first failing row aborting
the whole extraction. -/
def extract_transaction_history (page : Node) :
    Except PyErr (List (List (String × TxVal))) :=
  match findTable page with
  | none => .error .attrError
  | some t =>
    match Node.findTag "tbody" t with
    | none => .error .attrError
    | some tb => mapE processRow (Node.findTags "tr" tb)

deriving instance DecidableEq for Except

/-- Whether an extraction result is a named field-extraction failure
(`HoldingFieldNotFoundException`), as opposed to a raw Python error. -/
def isNamedFieldFailure {α : Type} (r : Except PyErr α) : Bool :=
  match r with
  | .error (.fieldNotFound _ _) => true
  | _ => false

/-- The qualification test as claim C3 words it: the container's parent
carries a present, non-blank trading-currency attribute. -/
def qualifiesC3 (parent : Node) : Bool :=
  match Node.attrGet parent "data-tradingcurrencyid" with
  | none => false
  | some tc => tc != ""

/-- The account a qualifying container yields (claim C3's wording): trimmed
node text, trimmed trading-currency attribute, trimmed `data-id` attribute
(defaulted to the empty string; the amended claim assumes it is present). -/
def accountOfDiv (dp : Node × Node) : Account :=
  ⟨Py.strip (Node.nodeText dp.1),
   Py.strip ((Node.attrGet dp.2 "data-tradingcurrencyid").getD ""),
   Py.strip ((Node.attrGet dp.2 "data-id").getD "")⟩

/-- The amount parser exactly as claim C1 words it: the sign is negative
exactly when a `'-'` occurs; the `'-'` characters and ALL whitespace are
stripped; the first remaining character is the currency and the rest is the
non-negative magnitude; the amount is sign times magnitude. (Differs from the
code, which strips only the space character `' '`.) -/
def claimedParseAllWS (s : String) : Except PyErr (String × ℚ) :=
  let neg := Py.containsChar s '-'
  let t := s.data.filter (fun c => !Py.isSpaceChar c && c != '-')
  match t with
  | [] => .error .indexError
  | c :: rest =>
    match Py.pyFloat ⟨rest⟩ with
    | none => .error .valueError
    | some m => .ok (⟨[c]⟩, if neg then -m else m)

/-- The amount parser as the amended claim C1 words it: as `claimedParseAllWS`
but stripping only space characters `' '`, matching the code's
`replace(' ', '')`. -/
def claimedParseSpaces (s : String) : Except PyErr (String × ℚ) :=
  let neg := Py.containsChar s '-'
  let t := s.data.filter (fun c => c != ' ' && c != '-')
  match t with
  | [] => .error .indexError
  | c :: rest =>
    match Py.pyFloat ⟨rest⟩ with
    | none => .error .valueError
    | some m => .ok (⟨[c]⟩, if neg then -m else m)

/-- The contract code as claim C5 words it: the path segment of the image URL
between the last `'/'` and the `'.png'` SUFFIX; fails when the URL does not
contain both markers. (Differs from the code, which cuts at the FIRST
occurrence of `'.png'`.) -/
def claimedContractCode (s : String) : Except PyErr String :=
  if (".png".data).isSuffixOf s.data then
    match Py.rindexSub "/" s with
    | none => .error .valueError
    | some i => .ok (Py.slice s (i + 1) (s.data.length - 4))
  else .error .valueError

/-- Account-overview page with one qualifying container (trading currency
`"2"`) whose parent lacks the `data-id` attribute. -/
def accPageNoId : Node :=
  .elem "html" [] none
    [.elem "div" [("data-tradingcurrencyid", "2")] none
      [.elem "div" [("id", "trust-account-types")] none [.text "EasyEquities USD"]]]

/-- Account-overview page with one qualifying container (with `data-id`), one
container whose parent lacks the trading-currency attribute, and one whose
trading-currency attribute is blank. -/
def accPageMixed : Node :=
  .elem "html" [] none
    [.elem "div" [("data-tradingcurrencyid", "1"), ("data-id", " 10 ")] none
      [.elem "div" [("id", "trust-account-types")] none [.text " EasyEquities ZAR "]],
     .elem "div" [] none
      [.elem "div" [("id", "trust-account-types")] none [.text "Skipped"]],
     .elem "div" [("data-tradingcurrencyid", "")] none
      [.elem "div" [("id", "trust-account-types")] none [.text "Blank"]]]

/-- Account-overview page with no account containers at all. -/
def accPageZero : Node :=
  .elem "html" [] none [.elem "div" [] (some ["content"]) [.text "nothing here"]]

/-- A fully populated holding row: the marker div with all the sub-nodes the
eight field extractions look for. -/
def mkHoldingRow (nm imgUrl vurl pv cv cp : String) : Node :=
  .elem "div" [] (some ["holding-inner-container"])
    [.elem "div" [] (some ["equity-image-as-text"]) [.text nm],
     .elem "img" [("src", imgUrl)] (some ["instrument"]) [],
     .elem "div" [] (some ["purchase-value-cell"]) [.text pv],
     .elem "div" [] (some ["current-value-cell"]) [.text cv],
     .elem "div" [] (some ["current-price-cell"]) [.text cp],
     .elem "div" [] (some ["collapse-container"])
       [.elem "span" [("data-detailviewurl", vurl)] none []]]

/-- The header row: matches the holding marker class but carries no data. -/
def holdingHeaderRow : Node :=
  .elem "div" [] (some ["holding-inner-container"]) [.text "Name"]

/-- Holdings page: a header row inside a header-classed wrapper, followed by
three distinct-named data rows inside a data wrapper. -/
def holdingsPage3 : Node :=
  .elem "html" [] none
    [.elem "div" [] (some ["holding-table-header"]) [holdingHeaderRow],
     .elem "div" [] (some ["holdings"])
       [mkHoldingRow "AAA" "https://r.ee/logos/AAA.png" "url?isin=ZAE1" "R100" "R110" "R1.10",
        mkHoldingRow "BBB" "https://r.ee/logos/BBB.png" "url?isin=ZAE2" "R200" "R210" "R2.10",
        mkHoldingRow "CCC" "https://r.ee/logos/CCC.png" "url?isin=ZAE3" "R300" "R310" "R3.10"]]

/-- Holdings page whose two data rows share the name `"AAA"`. -/
def holdingsPageDup : Node :=
  .elem "html" [] none
    [.elem "div" [] (some ["holding-table-header"]) [holdingHeaderRow],
     .elem "div" [] (some ["holdings"])
       [mkHoldingRow "AAA" "https://r.ee/logos/AAA.png" "url?isin=ZAE1" "R100" "R110" "R1.10",
        mkHoldingRow "AAA" "https://r.ee/logos/AA2.png" "url?isin=ZAE9" "R900" "R910" "R9.10"]]

/-- A data row matching the holding marker but with no
`equity-image-as-text` sub-node: its `name` extraction raises. -/
def holdingRowNoName : Node :=
  .elem "div" [] (some ["holding-inner-container"]) [.text "nameless"]

/-- Holdings page whose single data row has no name sub-node. -/
def holdingsPageNoName : Node :=
  .elem "html" [] none
    [.elem "div" [] (some ["holding-table-header"]) [holdingHeaderRow],
     .elem "div" [] (some ["holdings"]) [holdingRowNoName]]

/-- A data row with a name but nothing else: the first failing field in
`to_dict` order is `contract_code` (it evaluates `self.img`, and the
`instrument` node is missing). -/
def holdingRowDDD : Node :=
  .elem "div" [] (some ["holding-inner-container"])
    [.elem "div" [] (some ["equity-image-as-text"]) [.text "DDD"]]

/-- The data wrapper holding `holdingRowDDD`. -/
def holdingWrapDDD : Node := .elem "div" [] (some ["holdings"]) [holdingRowDDD]

/-- Holdings page whose single data row is missing its image sub-node. -/
def holdingsPageNoImg : Node :=
  .elem "html" [] none
    [.elem "div" [] (some ["holding-table-header"]) [holdingHeaderRow],
     holdingWrapDDD]

/-- A complete data row used on the classless-parent page. -/
def holdingRowEEE : Node :=
  mkHoldingRow "EEE" "https://r.ee/logos/EEE.png" "url?isin=ZAE5" "R1" "R2" "R0.1"

/-- A wrapper with NO class attribute at all. -/
def holdingWrapNoClass : Node := .elem "div" [] none [holdingRowEEE]

/-- Holdings page whose single data row sits under a parent with no class
attribute. -/
def holdingsPageClassless : Node :=
  .elem "html" [] none
    [.elem "div" [] (some ["holding-table-header"]) [holdingHeaderRow],
     holdingWrapNoClass]

/-- A data wrapper holding one plain marker row, for the header-discard
characterization. -/
def c6WrapData : Node := .elem "div" [] (some ["holdings"]) [holdingRowNoName]

/-- A minimal holdings page: one header row inside a header-classed wrapper,
one data row. -/
def c6Page : Node :=
  .elem "html" [] none
    [.elem "div" [] (some ["holding-table-header"]) [holdingHeaderRow], c6WrapData]

/-- A transaction table row with `DATE`, `DEBIT/CREDIT` and `COMMENT` cells. -/
def mkTxRow (dateStr amtStr : String) : Node :=
  .elem "tr" [] none
    [.elem "td" [("data-title", "DATE")] none [.text dateStr],
     .elem "td" [("data-title", "DEBIT/CREDIT")] none [.text amtStr],
     .elem "td" [("data-title", "COMMENT")] none [.text " Interest "]]

/-- A transaction-history page wrapping the given body rows in the
`table table-style` table. -/
def mkTxPage (rows : List Node) : Node :=
  .elem "html" [] none
    [.elem "table" [] (some ["table", "table-style"])
      [.elem "tbody" [] none rows]]

/-- A transaction-history page with no transaction table at all. -/
def txPageNoTable : Node :=
  .elem "html" [] none [.elem "div" [] (some ["content"]) [.text "no table"]]

/-- A transaction row whose DATE cell is malformed (`"05/01/2023"`). -/
def txRowBadDate : Node := mkTxRow "05/01/2023" "R1 234.56"

/-- The body holding the malformed row. -/
def txTbodyBad : Node := .elem "tbody" [] none [txRowBadDate]

/-- The table holding the malformed row. -/
def txTableBad : Node :=
  .elem "table" [] (some ["table", "table-style"]) [txTbodyBad]

/-- Page with the malformed-date row. -/
def txPageBadDate : Node := mkTxPage [txRowBadDate]

/-- A well-formed transaction row. -/
def txRowGood : Node := mkTxRow "2023-05-01" "R-1 234.56"

/-- The body holding the well-formed row. -/
def txTbodyGood : Node := .elem "tbody" [] none [txRowGood]

/-- The table holding the well-formed row. -/
def txTableGood : Node :=
  .elem "table" [] (some ["table", "table-style"]) [txTbodyGood]

/-- Page with the well-formed row. -/
def txPageGood : Node := mkTxPage [txRowGood]

/-- The record scraped from `txRowGood`. -/
def txGoodRecord : List (String × TxVal) :=
  [("DATE", .dat ⟨2023, 5, 1⟩), ("DEBIT/CREDIT", .str "R-1 234.56"),
   ("COMMENT", .str "Interest"), ("CURRENCY", .str "R"),
   ("AMOUNT", .num (mkRat (-123456) 100))]

example : extract_accounts accPageNoId = .error (.keyError "data-id") := by decide

example : extract_accounts accPageMixed = .ok [⟨"EasyEquities ZAR", "1", "10"⟩] := by decide

example : extract_accounts accPageZero = .ok [] := by decide

example :
    extract_holdings holdingsPage3 =
      .ok [⟨"AAA", "AAA", "R100", "R110", "R1.10", "https://r.ee/logos/AAA.png", "url?isin=ZAE1", "ZAE1"⟩,
           ⟨"BBB", "BBB", "R200", "R210", "R2.10", "https://r.ee/logos/BBB.png", "url?isin=ZAE2", "ZAE2"⟩,
           ⟨"CCC", "CCC", "R300", "R310", "R3.10", "https://r.ee/logos/CCC.png", "url?isin=ZAE3", "ZAE3"⟩] := by
  decide

example :
    extract_holdings holdingsPageDup =
      .ok [⟨"AAA", "AAA", "R100", "R110", "R1.10", "https://r.ee/logos/AAA.png", "url?isin=ZAE1", "ZAE1"⟩] := by
  decide

example : extract_holdings holdingsPageNoName = .error .attrError := by decide

example : extract_holdings holdingsPageNoImg = .error (.fieldNotFound "contract_code" .attrError) := by decide

example : extract_holdings holdingsPageClassless = .error (.keyError "class") := by decide

example : extract_transaction_history txPageNoTable = .error .attrError := by decide

example : extract_transaction_history (mkTxPage []) = .ok [] := by decide

example : extract_transaction_history (mkTxPage [mkTxRow "05/01/2023" "R1 234.56"]) = .error .valueError := by decide

example :
    extract_transaction_history (mkTxPage [mkTxRow "2023-05-01" "R-1 234.56"]) =
      .ok [[("DATE", .dat ⟨2023, 5, 1⟩),
            ("DEBIT/CREDIT", .str "R-1 234.56"),
            ("COMMENT", .str "Interest"),
            ("CURRENCY", .str "R"),
            ("AMOUNT", .num (mkRat (-123456) 100))]] := by decide

example : parseDebitCredit "R1\n234.56" = .error .valueError := by decide

example : claimedParseAllWS "R1\n234.56" = .ok ("R", mkRat 123456 100) := by decide

example : HoldingDivParser.contractCodeOfImg "a.png/z.png" = .ok "" := by decide

example : claimedContractCode "a.png/z.png" = .ok "z" := by decide

theorem mapE_ok_length {α β : Type} (f : α → Except PyErr β) (l : List α) :
    ∀ bs, mapE f l = .ok bs → bs.length = l.length := by
  induction l with
  | nil => intro bs h; simp only [mapE] at h; cases h; rfl
  | cons a as ih =>
    intro bs h
    simp only [mapE] at h
    cases hfa : f a with
    | error e => rw [hfa] at h; cases h
    | ok b =>
      rw [hfa] at h
      cases hrest : mapE f as with
      | error e => rw [hrest] at h; cases h
      | ok bs' => rw [hrest] at h; cases h; simp [ih bs' hrest]

theorem mapE_ok_get {α β : Type} (f : α → Except PyErr β) (l : List α) :
    ∀ bs, mapE f l = .ok bs → ∀ i (h1 : i < l.length) (h2 : i < bs.length),
      f (l.get ⟨i, h1⟩) = .ok (bs.get ⟨i, h2⟩) := by
  induction l with
  | nil => intro bs h i h1 h2; exact absurd h1 (by simp)
  | cons a as ih =>
    intro bs h i h1 h2
    simp only [mapE] at h
    cases hfa : f a with
    | error e => rw [hfa] at h; cases h
    | ok b =>
      rw [hfa] at h
      cases hrest : mapE f as with
      | error e => rw [hrest] at h; cases h
      | ok bs' =>
        rw [hrest] at h; cases h
        cases i with
        | zero => simpa using hfa
        | succ n =>
          exact ih bs' hrest n (by simpa using h1) (by simpa using h2)

theorem mapE_error_of_mem {α β : Type} (f : α → Except PyErr β) (l : List α)
    (a : α) (e : PyErr) (ha : a ∈ l) (hfa : f a = .error e) :
    ∃ e', mapE f l = .error e' := by
  induction l with
  | nil => cases ha
  | cons x xs ih =>
    rcases List.mem_cons.mp ha with rfl | hm
    · refine ⟨e, ?_⟩
      simp only [mapE, hfa]
    · simp only [mapE]
      cases hfx : f x with
      | error e'' => exact ⟨e'', rfl⟩
      | ok b =>
        rcases ih hm with ⟨e', he'⟩
        rw [he']
        exact ⟨e', rfl⟩

theorem mapE_error_src {α β : Type} (f : α → Except PyErr β) (l : List α) :
    ∀ e, mapE f l = .error e → ∃ a ∈ l, f a = .error e := by
  induction l with
  | nil => intro e h; simp only [mapE] at h; cases h
  | cons x xs ih =>
    intro e h
    simp only [mapE] at h
    cases hfx : f x with
    | error e' => rw [hfx] at h; cases h; exact ⟨x, by simp, hfx⟩
    | ok b =>
      rw [hfx] at h
      cases hrest : mapE f xs with
      | error e' =>
        rw [hrest] at h; cases h
        rcases ih _ hrest with ⟨a, ha, hfa⟩
        exact ⟨a, by simp [ha], hfa⟩
      | ok bs => rw [hrest] at h; cases h

theorem mapE_ok_map_mem {α β γ : Type} (f : α → Except PyErr β) (g : β → γ)
    (gl : α → γ) (l : List α) :
    ∀ bs, mapE f l = .ok bs → (∀ a ∈ l, ∀ b, f a = .ok b → g b = gl a) →
      bs.map g = l.map gl := by
  induction l with
  | nil => intro bs h _; simp only [mapE] at h; cases h; rfl
  | cons x xs ih =>
    intro bs h hmem
    simp only [mapE] at h
    cases hfx : f x with
    | error e => rw [hfx] at h; cases h
    | ok b =>
      rw [hfx] at h
      cases hrest : mapE f xs with
      | error e => rw [hrest] at h; cases h
      | ok bs' =>
        rw [hrest] at h; cases h
        simp only [List.map]
        rw [hmem x (by simp) b hfx,
          ih bs' hrest (fun a ha b' hb' => hmem a (by simp [ha]) b' hb')]

theorem mem_dictInsert_self {α : Type} (k : String) (v : α) (d : List (String × α)) :
    (k, v) ∈ dictInsert k v d := by
  induction d with
  | nil => simp [dictInsert]
  | cons kv rest ih =>
    rcases kv with ⟨k', v'⟩
    simp only [dictInsert]
    by_cases h : k' = k
    · rw [if_pos h]; exact List.mem_cons_self _ _
    · rw [if_neg h]; exact List.mem_cons_of_mem _ ih

theorem mem_dictInsert_of_ne {α : Type} (k : String) (v : α) (d : List (String × α))
    (kv : String × α) (hne : kv.1 ≠ k) (h : kv ∈ d) : kv ∈ dictInsert k v d := by
  induction d with
  | nil => cases h
  | cons x rest ih =>
    rcases x with ⟨k', v'⟩
    simp only [dictInsert]
    by_cases hk : k' = k
    · rw [if_pos hk]
      rcases List.mem_cons.mp h with rfl | hm
      · exact absurd hk hne
      · exact List.mem_cons_of_mem _ hm
    · rw [if_neg hk]
      rcases List.mem_cons.mp h with rfl | hm
      · exact List.mem_cons_self _ _
      · exact List.mem_cons_of_mem _ (ih hm)

theorem dedupGo_sub : ∀ (seen : List String) (l : List (Node × String)) (p : Node × String),
    p ∈ dedupGo seen l → p ∈ l := by
  intro seen l
  induction l generalizing seen with
  | nil => intro p h; cases h
  | cons x rest ih =>
    intro p h
    rcases x with ⟨d, n⟩
    simp only [dedupGo] at h
    by_cases hn : n ∈ seen
    · rw [if_pos hn] at h
      exact List.mem_cons_of_mem _ (ih seen p h)
    · rw [if_neg hn] at h
      rcases List.mem_cons.mp h with rfl | hm
      · exact List.mem_cons_self _ _
      · exact List.mem_cons_of_mem _ (ih (n :: seen) p hm)

theorem dedupGo_names (l : List (Node × String)) :
    ∀ seen, ((dedupGo seen l).map Prod.snd).Nodup ∧
      ∀ p ∈ dedupGo seen l, p.2 ∉ seen := by
  induction l with
  | nil => intro seen; simp [dedupGo]
  | cons x rest ih =>
    intro seen
    rcases x with ⟨d, n⟩
    simp only [dedupGo]
    by_cases hn : n ∈ seen
    · rw [if_pos hn]; exact ih seen
    · rw [if_neg hn]
      rcases ih (n :: seen) with ⟨hnd, hseen⟩
      refine ⟨?_, ?_⟩
      · simp only [List.map, List.nodup_cons]
        refine ⟨?_, hnd⟩
        intro hmem
        rcases List.mem_map.mp hmem with ⟨p, hp, hpn⟩
        exact hseen p hp (by simp [hpn])
      · intro p hp
        rcases List.mem_cons.mp hp with rfl | hm
        · exact hn
        · intro hpseen
          exact hseen p hm (List.mem_cons_of_mem _ hpseen)

theorem headerGuard_ok_filter : ∀ (l kept : List (Node × Node)),
    headerGuard l = .ok kept →
    kept = l.filter
      (fun dp => !(((Node.classesAttr dp.2).getD []).contains "holding-table-header")) := by
  intro l
  induction l with
  | nil => intro kept h; simp only [headerGuard] at h; cases h; rfl
  | cons x rest ih =>
    intro kept h
    rcases x with ⟨d, p⟩
    simp only [headerGuard] at h
    split at h
    · cases h
    · rename_i cs hc
      split at h
      · cases h
      · rename_i tail hrest
        split at h
        · cases h
          rename_i hdr
          rw [List.filter_cons]
          simp only [hc, Option.getD_some, hdr]
          rw [if_neg (by simp)]
          exact ih _ hrest
        · cases h
          rename_i hdr
          have hdr' : cs.contains "holding-table-header" = false := by
            simpa using hdr
          rw [List.filter_cons]
          simp only [hc, Option.getD_some, hdr']
          rw [if_pos (by simp)]
          rw [ih _ hrest]

theorem headerGuard_classless : ∀ (l : List (Node × Node)) (dp : Node × Node),
    dp ∈ l → Node.classesAttr dp.2 = none →
    headerGuard l = .error (.keyError "class") := by
  intro l
  induction l with
  | nil => intro dp h; cases h
  | cons x rest ih =>
    intro dp hmem hnone
    rcases x with ⟨d, p⟩
    simp only [headerGuard]
    cases hc : Node.classesAttr p with
    | none => rfl
    | some cs =>
      rcases List.mem_cons.mp hmem with rfl | hm
      · rw [hc] at hnone; cases hnone
      · rw [ih dp hm hnone]

theorem evalNames_ok_mem : ∀ (ds : List Node) (named : List (Node × String)),
    evalNames ds = .ok named → ∀ p ∈ named, HoldingDivParser.name p.1 = .ok p.2 := by
  intro ds
  induction ds with
  | nil => intro named h p hp; simp only [evalNames] at h; cases h; cases hp
  | cons d rest ih =>
    intro named h p hp
    simp only [evalNames] at h
    cases hn : HoldingDivParser.name d with
    | error e => rw [hn] at h; cases h
    | ok nm =>
      rw [hn] at h
      cases hrest : evalNames rest with
      | error e => rw [hrest] at h; cases h
      | ok tail =>
        rw [hrest] at h; cases h
        rcases List.mem_cons.mp hp with rfl | hm
        · exact hn
        · exact ih tail hrest p hm

theorem wrapField_error_shape (f : String) (r : Except PyErr String) (e : PyErr)
    (h : HoldingDivParser.wrapField f r = .error e) :
    ∃ c, e = .fieldNotFound f c := by
  unfold HoldingDivParser.wrapField at h
  cases r with
  | error e' => cases h; exact ⟨e', rfl⟩
  | ok v => cases h

theorem to_dict_error_shape (div : Node) (e : PyErr)
    (h : HoldingDivParser.to_dict div = .error e) :
    ∃ f c, e = .fieldNotFound f c := by
  unfold HoldingDivParser.to_dict at h
  repeat' split at h
  any_goals (cases h)
  all_goals (rename_i heq; rcases wrapField_error_shape _ _ _ heq with ⟨c, rfl⟩
             ; exact ⟨_, c, rfl⟩)

theorem to_dict_name_of_ok (div : Node) (nm : String) (h : Holding)
    (hn : HoldingDivParser.name div = .ok nm)
    (hd : HoldingDivParser.to_dict div = .ok h) : h.name = nm := by
  unfold HoldingDivParser.to_dict at hd
  rw [hn] at hd
  simp only [HoldingDivParser.wrapField] at hd
  repeat' split at hd
  any_goals (cases hd)
  rfl

theorem processRow_date_error (row : Node) (rd : List (String × String)) (ds : String)
    (hrd : scrapeCells (Node.findTags "td" row) = .ok rd)
    (hds : lookupE "DATE" rd = .ok ds)
    (hbad : Py.fromisoformat ds = none) :
    processRow row = .error .valueError := by
  unfold processRow
  simp only [hrd, hds, hbad]

theorem processRow_fields (row : Node) (r : List (String × TxVal))
    (rd : List (String × String))
    (hrd : scrapeCells (Node.findTags "td" row) = .ok rd)
    (h : processRow row = .ok r) :
    (∀ kv ∈ rd, kv.1 ≠ "DATE" → kv.1 ≠ "CURRENCY" → kv.1 ≠ "AMOUNT" →
        (kv.1, TxVal.str kv.2) ∈ r) ∧
    (∃ d, ("DATE", TxVal.dat d) ∈ r) ∧
    (∃ c, ("CURRENCY", TxVal.str c) ∈ r) ∧
    (∃ q, ("AMOUNT", TxVal.num q) ∈ r) := by
  unfold processRow at h
  simp only [hrd] at h
  repeat' split at h
  any_goals (cases h)
  rename_i xa sa ha xb dd hb xc sc hc2 xd ca hca
  refine ⟨?_, ⟨dd, ?_⟩, ⟨ca.1, ?_⟩, ⟨ca.2, ?_⟩⟩
  · intro kv hkv h1 h2 h3
    apply mem_dictInsert_of_ne _ _ _ (kv.1, TxVal.str kv.2) h3
    apply mem_dictInsert_of_ne _ _ _ (kv.1, TxVal.str kv.2) h2
    apply mem_dictInsert_of_ne _ _ _ (kv.1, TxVal.str kv.2) h1
    exact List.mem_map_of_mem _ hkv
  · apply mem_dictInsert_of_ne _ _ _ ("DATE", TxVal.dat dd)
      (show ("DATE" : String) ≠ "AMOUNT" by decide)
    apply mem_dictInsert_of_ne _ _ _ ("DATE", TxVal.dat dd)
      (show ("DATE" : String) ≠ "CURRENCY" by decide)
    exact mem_dictInsert_self _ _ _
  · apply mem_dictInsert_of_ne _ _ _ ("CURRENCY", TxVal.str ca.1)
      (show ("CURRENCY" : String) ≠ "AMOUNT" by decide)
    exact mem_dictInsert_self _ _ _
  · exact mem_dictInsert_self _ _ _

theorem extract_account_info_char (d p : Node)
    (hid : qualifiesC3 p = true → (Node.attrGet p "data-id").isSome = true) :
    extract_account_info d p =
      .ok (if qualifiesC3 p then some (accountOfDiv (d, p)) else none) := by
  cases htc : Node.attrGet p "data-tradingcurrencyid" with
  | none =>
    have hq : qualifiesC3 p = false := by simp [qualifiesC3, htc]
    simp [extract_account_info, htc, hq]
  | some tc =>
    by_cases hblank : tc = ""
    · subst hblank
      have hq : qualifiesC3 p = false := by simp [qualifiesC3, htc]
      simp [extract_account_info, htc, hq]
    · have hq : qualifiesC3 p = true := by simp [qualifiesC3, htc, hblank]
      have hsome := hid hq
      cases hii : Node.attrGet p "data-id" with
      | none => rw [hii] at hsome; cases hsome
      | some i =>
        simp [extract_account_info, htc, hblank, hq, accountOfDiv, hii]

theorem accountsLoop_ok (l : List (Node × Node))
    (h : ∀ dp ∈ l, qualifiesC3 dp.2 = true → (Node.attrGet dp.2 "data-id").isSome = true) :
    mapE (fun dp => extract_account_info dp.1 dp.2) l =
      .ok (l.map (fun dp => if qualifiesC3 dp.2 then some (accountOfDiv dp) else none)) := by
  induction l with
  | nil => rfl
  | cons x rest ih =>
    have hx : extract_account_info x.1 x.2 =
        .ok (if qualifiesC3 x.2 then some (accountOfDiv x) else none) := by
      simpa using extract_account_info_char x.1 x.2 (h x (by simp))
    simp only [mapE, List.map, hx, ih (fun dp hdp => h dp (by simp [hdp]))]

theorem filterMapAccounts (l : List (Node × Node)) :
    (l.map (fun dp =>
        if qualifiesC3 dp.2 then some (accountOfDiv dp) else none)).filterMap id =
      (l.filter (fun dp => qualifiesC3 dp.2)).map accountOfDiv := by
  induction l with
  | nil => rfl
  | cons x rest ih =>
    by_cases hq : qualifiesC3 x.2
    · simp [List.filterMap_cons, List.filter_cons, hq, ih]
    · simp [List.filterMap_cons, List.filter_cons, hq, ih]

theorem parseDC_eq_claimedSpaces (s : String) :
    parseDebitCredit s = claimedParseSpaces s := by
  unfold parseDebitCredit claimedParseSpaces
  by_cases hc : Py.containsChar s '-'
  · have hl : (Py.removeAllChar ' ' (Py.removeAllChar '-' s)).data =
        s.data.filter (fun c => c != ' ' && c != '-') := by
      show List.filter _ (List.filter _ s.data) = _
      rw [List.filter_filter]
    simp only [hc, if_true, hl]
  · have hc' : Py.containsChar s '-' = false := by simpa using hc
    have hnone : ∀ c ∈ s.data, (c != '-') = true := by
      intro c hcs
      by_contra hne
      have hcc : c = '-' := by simpa using hne
      subst hcc
      have : Py.containsChar s '-' = true := by
        simpa [Py.containsChar] using hcs
      rw [hc'] at this
      cases this
    have hl : (Py.removeAllChar ' ' s).data =
        s.data.filter (fun c => c != ' ' && c != '-') := by
      simp only [Py.removeAllChar]
      apply List.filter_congr
      intro c hcs
      rw [hnone c hcs, Bool.and_true]
    simp only [hc', Bool.false_eq_true, if_false, hl]

/-- C1 (counterexample): the claim says ALL interior whitespace is stripped
before the magnitude is parsed, so on `"R1\n234.56"` it predicts currency
`"R"` and amount `1234.56`; the code strips only the space character, leaving
the newline for `float(...)`, which raises ValueError and aborts. -/
theorem claim_C1_counterexample :
    parseDebitCredit "R1\n234.56" = .error .valueError ∧
    claimedParseAllWS "R1\n234.56" = .ok ("R", mkRat 123456 100) :=
  ⟨by decide, by decide⟩

/-- C1 (amended): the DEBIT/CREDIT string is parsed as the claim states it,
except that only space characters `' '` (not all whitespace) are stripped: the
amount is negative exactly when a `'-'` occurs (all `'-'` are stripped), all
`' '` are stripped, the first remaining character is the single-character
CURRENCY and the rest parses as the non-negative magnitude, with AMOUNT =
sign x magnitude; in particular `"R-1 234.56"` yields `("R", -1234.56)` and
`"R1 234.56"` yields `("R", 1234.56)`. -/
theorem claim_C1_amended :
    (∀ s, parseDebitCredit s = claimedParseSpaces s) ∧
    parseDebitCredit "R-1 234.56" = .ok ("R", mkRat (-123456) 100) ∧
    parseDebitCredit "R1 234.56" = .ok ("R", mkRat 123456 100) :=
  ⟨parseDC_eq_claimedSpaces, by decide, by decide⟩

/-- C2 (counterexample): the claim says a failing `name` extraction surfaces
as a named field-extraction failure, but a data row without its name sub-node
makes the page-level extraction fail with a raw AttributeError raised while
hashing the row wrappers into the dedup set, before `to_dict` ever runs — not
a `HoldingFieldNotFoundException`. -/
theorem claim_C2_counterexample :
    HoldingDivParser.name holdingRowNoName = .error .attrError ∧
    extract_holdings holdingsPageNoName = .error .attrError ∧
    isNamedFieldFailure (extract_holdings holdingsPageNoName) = false :=
  ⟨by decide, by decide, by decide⟩

/-- C2 (amended): row conversion (`to_dict`) only ever fails with a named
field-extraction failure carrying the field name and the underlying cause;
and when any surviving deduplicated row's conversion fails, the page-level
extraction returns that named failure (fail-fast: no list is produced, no row
is silently dropped). A failure of the `name` extraction itself instead
aborts the page with a raw attribute error during set construction, before
row conversion. -/
theorem claim_C2_amended :
    (∀ (div : Node) (e : PyErr), HoldingDivParser.to_dict div = .error e →
      ∃ f c, e = .fieldNotFound f c) ∧
    (∀ (page : Node) (kept : List (Node × Node)) (named : List (Node × String))
        (p : Node × String),
      headerGuard ((findHoldingDivs page).drop 1) = .ok kept →
      evalNames (kept.map Prod.fst) = .ok named →
      p ∈ dedupByName named →
      (∃ e, HoldingDivParser.to_dict p.1 = .error e) →
      ∃ f c, extract_holdings page = .error (.fieldNotFound f c)) := by
  refine ⟨to_dict_error_shape, ?_⟩
  intro page kept named p hk hn hp hex
  obtain ⟨e, he⟩ := hex
  rcases mapE_error_of_mem (fun q => HoldingDivParser.to_dict q.1)
      (dedupByName named) p e hp he with ⟨e', he'⟩
  rcases mapE_error_src _ _ _ he' with ⟨a, ha, hfa⟩
  rcases to_dict_error_shape _ _ hfa with ⟨f, c, rfl⟩
  refine ⟨f, c, ?_⟩
  unfold extract_holdings
  split
  · rename_i e2 heq
    rw [hk] at heq
    cases heq
  · rename_i kept2 heq
    rw [hk] at heq
    cases heq
    split
    · rename_i e2 heq2
      rw [hn] at heq2
      cases heq2
    · rename_i named2 heq2
      rw [hn] at heq2
      cases heq2
      exact he'

/-- C2 (witness): on the page whose only data row lacks its image sub-node,
the extraction fails with a named field-extraction failure. -/
theorem claim_C2_witness :
    ∃ f c, extract_holdings holdingsPageNoImg = .error (.fieldNotFound f c) :=
  claim_C2_amended.2 holdingsPageNoImg [(holdingRowDDD, holdingWrapDDD)]
    [(holdingRowDDD, "DDD")] (holdingRowDDD, "DDD") rfl rfl
    (List.mem_singleton_self _)
    ⟨.fieldNotFound "contract_code" .attrError, by decide⟩

/-- C3 (counterexample): the claim says a page with N qualifying containers
(present, non-blank trading-currency on the parent) yields exactly N account
records, but a page with one qualifying container whose parent lacks the
`data-id` attribute makes the extraction raise KeyError instead of returning
one record. -/
theorem claim_C3_counterexample :
    ((findAccountDivs accPageNoId).filter (fun dp => qualifiesC3 dp.2)).length = 1 ∧
    extract_accounts accPageNoId = .error (.keyError "data-id") :=
  ⟨by decide, by decide⟩

/-- C3 (amended): provided every qualifying container's parent also carries
the `data-id` attribute, account extraction returns exactly the qualifying
containers' accounts, one per container, in document order; containers whose
trading-currency attribute is missing or blank are silently skipped, and a
page with zero qualifying containers yields the empty list, not a failure. -/
theorem claim_C3_amended (page : Node)
    (h : ∀ dp ∈ findAccountDivs page, qualifiesC3 dp.2 = true →
        (Node.attrGet dp.2 "data-id").isSome = true) :
    extract_accounts page =
      .ok (((findAccountDivs page).filter
        (fun dp => qualifiesC3 dp.2)).map accountOfDiv) := by
  unfold extract_accounts
  split
  · rename_i e heq
    rw [accountsLoop_ok _ h] at heq
    cases heq
  · rename_i opts heq
    rw [accountsLoop_ok _ h] at heq
    cases heq
    rw [filterMapAccounts]

/-- C3 (witness): the mixed page (one qualifying container with `data-id`,
one container without the trading-currency attribute, one with a blank one)
extracts to exactly its qualifying containers' accounts. -/
theorem claim_C3_witness :
    extract_accounts accPageMixed =
      .ok (((findAccountDivs accPageMixed).filter
        (fun dp => qualifiesC3 dp.2)).map accountOfDiv) :=
  claim_C3_amended accPageMixed (by decide)

/-- C4: holding deduplication is keyed solely by name: any successful
holdings extraction returns at most one record per distinct name (the name
projection of the result is duplicate-free), and the page whose two data rows
share the name `"AAA"` yields exactly one record for that name. -/
theorem claim_C4 :
    (∀ (page : Node) (hs : List Holding), extract_holdings page = .ok hs →
      (hs.map Holding.name).Nodup) ∧
    extract_holdings holdingsPageDup =
      .ok [⟨"AAA", "AAA", "R100", "R110", "R1.10",
            "https://r.ee/logos/AAA.png", "url?isin=ZAE1", "ZAE1"⟩] := by
  constructor
  · intro page hs h
    unfold extract_holdings at h
    split at h
    · cases h
    · rename_i kept hk
      split at h
      · cases h
      · rename_i named hn
        have hmapnames : hs.map Holding.name = (dedupByName named).map Prod.snd := by
          refine mapE_ok_map_mem _ _ _ _ hs h ?_
          intro a ha b hb
          exact to_dict_name_of_ok a.1 a.2 b
            (evalNames_ok_mem _ _ hn a (dedupGo_sub [] named a ha)) hb
        rw [hmapnames]
        exact (dedupGo_names named []).1
  · decide

/-- C4 (witness): the duplicate-name page's extraction result has
duplicate-free names. -/
theorem claim_C4_witness :
    (([⟨"AAA", "AAA", "R100", "R110", "R1.10",
        "https://r.ee/logos/AAA.png", "url?isin=ZAE1", "ZAE1"⟩] : List Holding).map
        Holding.name).Nodup :=
  claim_C4.1 holdingsPageDup _ (by decide)

/-- C6: holdings extraction discards exactly two kinds of matched nodes
before the per-row processing stage: the first match (unconditionally,
`[1:]`) and any match whose parent's class list contains
`holding-table-header` — on success the surviving rows are precisely the
drop-one-then-filter of the matches; consequently a page with one header row
followed by three distinct-named data rows yields exactly three records. -/
theorem claim_C6 :
    (∀ (page : Node) (kept : List (Node × Node)),
      headerGuard ((findHoldingDivs page).drop 1) = .ok kept →
      kept = ((findHoldingDivs page).drop 1).filter
        (fun dp => !(((Node.classesAttr dp.2).getD []).contains "holding-table-header"))) ∧
    extract_holdings holdingsPage3 =
      .ok [⟨"AAA", "AAA", "R100", "R110", "R1.10",
            "https://r.ee/logos/AAA.png", "url?isin=ZAE1", "ZAE1"⟩,
           ⟨"BBB", "BBB", "R200", "R210", "R2.10",
            "https://r.ee/logos/BBB.png", "url?isin=ZAE2", "ZAE2"⟩,
           ⟨"CCC", "CCC", "R300", "R310", "R3.10",
            "https://r.ee/logos/CCC.png", "url?isin=ZAE3", "ZAE3"⟩] :=
  ⟨fun _ kept h => headerGuard_ok_filter _ kept h, by decide⟩

/-- C6 (witness): on the minimal page the guard keeps exactly the drop-one
filter of the matches. -/
theorem claim_C6_witness :
    [(holdingRowNoName, c6WrapData)] =
      ((findHoldingDivs c6Page).drop 1).filter
        (fun dp => !(((Node.classesAttr dp.2).getD []).contains "holding-table-header")) :=
  claim_C6.1 c6Page [(holdingRowNoName, c6WrapData)] rfl

/-- C7: the DATE field is parsed strictly as ISO-8601 `YYYY-MM-DD`
(`"2023-05-01"` gives May 1 2023, `"05/01/2023"` fails), and a body row whose
DATE value does not parse makes the whole transaction extraction return an
error — no partial row list. -/
theorem claim_C7 :
    Py.fromisoformat "2023-05-01" = some ⟨2023, 5, 1⟩ ∧
    Py.fromisoformat "05/01/2023" = none ∧
    ∀ (page t tb row : Node) (rd : List (String × String)) (ds : String),
      findTable page = some t → Node.findTag "tbody" t = some tb →
      row ∈ Node.findTags "tr" tb →
      scrapeCells (Node.findTags "td" row) = .ok rd →
      lookupE "DATE" rd = .ok ds → Py.fromisoformat ds = none →
      ∃ e, extract_transaction_history page = .error e := by
  refine ⟨by decide, by decide, ?_⟩
  intro page t tb row rd ds ht htb hrow hrd hds hbad
  have hpr := processRow_date_error row rd ds hrd hds hbad
  rcases mapE_error_of_mem processRow (Node.findTags "tr" tb) row _ hrow hpr
    with ⟨e', he'⟩
  refine ⟨e', ?_⟩
  unfold extract_transaction_history
  simp [ht, htb, he']

/-- C7 (witness): the page whose single row has DATE `"05/01/2023"` fails
as a whole. -/
theorem claim_C7_witness :
    ∃ e, extract_transaction_history txPageBadDate = .error e :=
  claim_C7.2.2 txPageBadDate txTableBad txTbodyBad txRowBadDate
    [("DATE", "05/01/2023"), ("DEBIT/CREDIT", "R1 234.56"), ("COMMENT", "Interest")]
    "05/01/2023" rfl rfl (List.mem_singleton_self _) (by decide) (by decide)
    (by decide)

/-- C8: when the `table table-style` table is absent, transaction extraction
fails with an attribute error; when the table and its body are present but
hold zero rows, it returns the empty list — the two outcomes are distinct by
construction. -/
theorem claim_C8 (page : Node) :
    (findTable page = none → extract_transaction_history page = .error .attrError) ∧
    (∀ t tb, findTable page = some t → Node.findTag "tbody" t = some tb →
      Node.findTags "tr" tb = [] → extract_transaction_history page = .ok []) := by
  constructor
  · intro h
    unfold extract_transaction_history
    simp [h]
  · intro t tb ht htb hrows
    unfold extract_transaction_history
    simp [ht, htb, hrows, mapE]

/-- C8 (witness): the table-less page errors; the empty-body page returns
the empty list. -/
theorem claim_C8_witness :
    extract_transaction_history txPageNoTable = .error .attrError ∧
    extract_transaction_history (mkTxPage []) = .ok [] :=
  ⟨(claim_C8 txPageNoTable).1 rfl,
   (claim_C8 (mkTxPage [])).2
     (.elem "table" [] (some ["table", "table-style"]) [.elem "tbody" [] none []])
     (.elem "tbody" [] none []) rfl rfl rfl⟩

/-- C9: a successful transaction extraction has one record per body row in
table order (`i`-th record comes from the `i`-th row), and each record
contains every originally scraped cell field (other than the three augmented
keys) as a string, plus the typed DATE, CURRENCY and AMOUNT fields. -/
theorem claim_C9 (page t tb : Node) (rs : List (List (String × TxVal)))
    (ht : findTable page = some t) (htb : Node.findTag "tbody" t = some tb)
    (h : extract_transaction_history page = .ok rs) :
    rs.length = (Node.findTags "tr" tb).length ∧
    (∀ i (h1 : i < (Node.findTags "tr" tb).length) (h2 : i < rs.length),
      processRow ((Node.findTags "tr" tb).get ⟨i, h1⟩) = .ok (rs.get ⟨i, h2⟩)) ∧
    (∀ (row : Node) (r : List (String × TxVal)) (rd : List (String × String)),
      processRow row = .ok r → scrapeCells (Node.findTags "td" row) = .ok rd →
      (∀ kv ∈ rd, kv.1 ≠ "DATE" → kv.1 ≠ "CURRENCY" → kv.1 ≠ "AMOUNT" →
        (kv.1, TxVal.str kv.2) ∈ r) ∧
      (∃ d, ("DATE", TxVal.dat d) ∈ r) ∧
      (∃ c, ("CURRENCY", TxVal.str c) ∈ r) ∧
      (∃ q, ("AMOUNT", TxVal.num q) ∈ r)) := by
  have hmap : mapE processRow (Node.findTags "tr" tb) = .ok rs := by
    unfold extract_transaction_history at h
    simp only [ht, htb] at h
    exact h
  exact ⟨mapE_ok_length _ _ _ hmap, mapE_ok_get _ _ _ hmap,
    fun row r rd hr hrd => processRow_fields row r rd hrd hr⟩

/-- C9 (witness): the one-row page yields exactly one record. -/
theorem claim_C9_witness :
    [txGoodRecord].length = (Node.findTags "tr" txTbodyGood).length :=
  (claim_C9 txPageGood txTableGood txTbodyGood [txGoodRecord] rfl rfl
    (by decide)).1

/-- C10: a matched holding row (other than the discarded first match) whose
parent has no class attribute at all makes the page-level extraction fail
with the raw key-lookup error for `class`, raised by the header-row guard
before any field extraction — in particular the failure is not a named
field-extraction failure and no row is silently skipped. -/
theorem claim_C10 (page d p : Node)
    (hmem : (d, p) ∈ (findHoldingDivs page).drop 1)
    (hnone : Node.classesAttr p = none) :
    extract_holdings page = .error (.keyError "class") ∧
    isNamedFieldFailure (extract_holdings page) = false := by
  have hg := headerGuard_classless _ _ hmem hnone
  have hres : extract_holdings page = .error (.keyError "class") := by
    unfold extract_holdings
    split
    · rename_i e heq
      rw [hg] at heq
      cases heq
      rfl
    · rename_i kept heq
      rw [hg] at heq
      cases heq
  exact ⟨hres, by rw [hres]; rfl⟩

/-- C10 (witness): the classless-parent page fails with the raw KeyError. -/
theorem claim_C10_witness :
    extract_holdings holdingsPageClassless = .error (.keyError "class") :=
  (claim_C10 holdingsPageClassless holdingRowEEE holdingWrapNoClass
    (List.mem_singleton_self _) rfl).1

/-- C5 (counterexample): the claim says contract code is the segment between
the last `'/'` and the `'.png'` SUFFIX, so on `"a.png/z.png"` it predicts
`"z"`; the code slices up to the FIRST occurrence of `'.png'`, which precedes
the last `'/'`, producing the empty string. -/
theorem claim_C5_counterexample :
    HoldingDivParser.contractCodeOfImg "a.png/z.png" = .ok "" ∧
    claimedContractCode "a.png/z.png" = .ok "z" :=
  ⟨by decide, by decide⟩

/-- C5 (amended): the contract code is the slice of the image URL from just
after the last `'/'` up to the FIRST occurrence of `'.png'` (empty when that
occurrence starts at or before the last `'/'`), and the extraction fails when
the URL lacks either a `'/'` or a `'.png'`. -/
theorem claim_C5_amended (s : String) :
    ((Py.rindexSub "/" s = none ∨ Py.indexSub ".png" s = none) →
      ∃ e, HoldingDivParser.contractCodeOfImg s = .error e) ∧
    (∀ i j, Py.rindexSub "/" s = some i → Py.indexSub ".png" s = some j →
      HoldingDivParser.contractCodeOfImg s = .ok (Py.slice s (i + 1) j)) := by
  constructor
  · intro h
    unfold HoldingDivParser.contractCodeOfImg
    rcases h with h | h
    · simp [h]
    · cases hr : Py.rindexSub "/" s with
      | none => simp [hr]
      | some i => simp [hr, h]
  · intro i j hi hj
    unfold HoldingDivParser.contractCodeOfImg
    simp [hi, hj]

/-- C5 (witness): a well-formed logo URL yields the expected slice. -/
theorem claim_C5_witness :
    HoldingDivParser.contractCodeOfImg "https://r.ee/logos/ABC.png" =
      .ok (Py.slice "https://r.ee/logos/ABC.png" 19 22) :=
  (claim_C5_amended "https://r.ee/logos/ABC.png").2 18 22 (by decide) (by decide)
